import Mathlib

/-!
Verification development for the Monte Carlo business-sustainability simulator
(`Model_3_Bussiness_Sustainability/simulation_backend.py`).

The Python source is shallowly embedded here over the rationals `ℚ`.
Python floats become `ℚ`; the `company_data` / `adjusted_data` dictionaries
become the `Params` structure (every key the simulator reads is a field);
the per-trial local variables become the `TrialState` structure.

Randomness and transcendental functions are made explicit: every call to
`np.random.*` and every evaluation of `sin`/`exp` on a trial-dependent
argument is read off an `Oracle` (for the trial engine) or `GenOracle`
(for the parameter generator).  Normal draws are modelled as
`mean + sigma * z` with `z` the oracle's standard draw, and
`np.random.uniform(a, b)` as `a + (b - a) * u`, so the dependence of every
distribution on the parameters is preserved exactly; only the shape of the
underlying standard draw is abstracted.

Division on `ℚ` is total with `x / 0 = 0`.  Where a claim is about IEEE
non-finite values, a parallel "checked" copy of the step function is used in
which every division whose denominator is a run-time value goes through
`fdiv`, which returns `none` exactly when IEEE arithmetic would produce a
non-finite result (`x / 0` is `±inf` or `NaN`).
-/

/-- The parameter dictionary (`company_data` before the run,
`adjusted_data` inside `run_monte_carlo_simulation`).  One field per key
that `simulation_backend.py` reads or writes. All values are numbers in the
source (note `funding_rounds` and `credit_score` are also floats there,
being drawn with `np.random.uniform`). -/
structure Params where
  initial_investment : ℚ
  initial_revenue : ℚ
  current_cash_reserves : ℚ
  debt_level : ℚ
  market_share : ℚ
  revenue_growth_rate_mean : ℚ
  revenue_growth_volatility : ℚ
  variable_costs_percentage : ℚ
  fixed_costs_base : ℚ
  fixed_costs : ℚ
  r_and_d_percentage : ℚ
  marketing_percentage : ℚ
  customer_retention_rate : ℚ
  market_growth_rate_mean : ℚ
  industry_cyclicality : ℚ
  market_volatility : ℚ
  seasonality_factor : ℚ
  competitor_entry_probability : ℚ
  competitor_impact : ℚ
  regulatory_change_probability : ℚ
  regulatory_impact : ℚ
  supply_chain_disruption_probability : ℚ
  supply_chain_impact : ℚ
  cost_inflation_rate : ℚ
  market_share_growth : ℚ
  funding_rounds : ℚ
  funding_probability : ℚ
  funding_amount_mean : ℚ
  credit_score : ℚ
  employee_count : ℚ
  employee_productivity : ℚ
  deriving DecidableEq

/-- Per-trial random/transcendental inputs for `run_monte_carlo_simulation`.
Each field abstracts one draw site of the period loop, indexed by the
period `t`:
* `sinEcon t` stands for `sin(2*pi*((t + econ_cycle_start) % 16) / 16)`
  (the per-trial random phase `econ_cycle_start` is folded into it);
* `sinMarket t` stands for `sin(t / (6 + industry_cyclicality))`;
* `zMarket t` is the standard-normal draw behind `market_growth`;
* `uComp/uReg/uSupply/uFund/uAnti t` are the `np.random.random()` draws of
  the competitor, regulatory, supply-chain, funding and anti-trust checks;
* `zCvg t` is the standard-normal draw behind `customer_value_growth`;
* `uFundPct t` is the uniform draw behind `funding_percent`;
* `sinSeason t` stands for the `t`-th entry of
  `sin(linspace(0, 2*pi*periods/4, periods))` (the seasonality array before
  multiplication by `seasonality_factor`). -/
structure Oracle where
  sinEcon : ℕ → ℚ
  sinMarket : ℕ → ℚ
  zMarket : ℕ → ℚ
  uComp : ℕ → ℚ
  uReg : ℕ → ℚ
  uSupply : ℕ → ℚ
  uFund : ℕ → ℚ
  uAnti : ℕ → ℚ
  zCvg : ℕ → ℚ
  uFundPct : ℕ → ℚ
  sinSeason : ℕ → ℚ

/-- The per-trial mutable locals of the period loop. -/
structure TrialState where
  revenue : ℚ
  cash : ℚ
  debt : ℚ
  market_share : ℚ
  market_size : ℚ
  customer_count : ℚ
  competitor_entered : Bool
  competitor_entry_periods : List ℕ
  regulatory_change : Bool
  regulatory_change_periods : List ℕ
  supply_chain_disruptions : List ℕ
  funding_rounds_remaining : ℚ
  last_funding_period : ℤ
  deriving DecidableEq

/-- One row of the recorded projections: the values stored at
`*_projections[i, t]`. -/
structure PeriodRecord where
  revenue : ℚ
  profit : ℚ
  cash_flow : ℚ
  roi : ℚ
  market_share : ℚ
  deriving DecidableEq

/-- Initial `TrialState`, from lines 303-337 of the source.  `rpc` is the
average revenue per customer, `1000 if "SaaS" in str(company_data) else 100`.
`imsize` is `initial_market_size` (computed once, before all trials). -/
def initState (p : Params) (rpc imsize : ℚ) : TrialState :=
  { revenue := p.initial_revenue
    cash := p.current_cash_reserves
    debt := p.debt_level
    market_share := p.market_share
    market_size := imsize
    customer_count := p.initial_revenue / rpc
    competitor_entered := false
    competitor_entry_periods := []
    regulatory_change := false
    regulatory_change_periods := []
    supply_chain_disruptions := []
    funding_rounds_remaining := p.funding_rounds
    last_funding_period := -4 }


/-- Result of the risk-event phase of one period (source lines 340-397):
market growth draw, market-size update, competitor entry, competitor-effect
decay, regulatory change and supply-chain disruption, including their
in-place mutations of the parameter dictionary. -/
structure EventsOut where
  p : Params
  market_growth : ℚ
  market_size : ℚ
  revenue0 : ℚ
  market_share0 : ℚ
  competitor_entered : Bool
  competitor_entry_periods : List ℕ
  regulatory_change : Bool
  regulatory_change_periods : List ℕ
  supply_chain_disruptions : List ℕ

/-- Source lines 340-397: economic cycle, market growth, and the three
discrete risk events.  `revenue0` / `market_share0` are the values of the
`revenue` / `market_share` locals after the event impacts, before the
growth phase. -/
def stepEvents (o : Oracle) (periods : ℕ) (t : ℕ) (p : Params) (s : TrialState) :
    EventsOut :=
  -- economic cycle factor (sinusoidal with per-trial random phase; the sine
  -- value is read from the oracle)
  let econ_cycle_factor : ℚ := 1 + (1/5) * o.sinEcon t
  -- market growth ~ Normal(mean * cycle factors / 100, volatility / 100)
  let market_cycle_factor : ℚ := 1 + (1/5) * o.sinMarket t
  let market_growth : ℚ :=
    p.market_growth_rate_mean * market_cycle_factor * econ_cycle_factor / 100
      + (p.market_volatility / 100) * o.zMarket t
  let market_size : ℚ := s.market_size * (1 + market_growth)
  -- competitor entry (fires only while the `competitor_entered` flag is unset)
  let fireComp : Bool :=
    decide (o.uComp t < p.competitor_entry_probability / (periods : ℚ))
      && !s.competitor_entered
  let p1 : Params := if fireComp then
      { p with marketing_percentage := p.marketing_percentage * (6/5) }
    else p
  let ms0 : ℚ := if fireComp then
      s.market_share * (1 - p.competitor_impact / 100)
    else s.market_share
  let entryPeriods : List ℕ := if fireComp then s.competitor_entry_periods ++ [t]
    else s.competitor_entry_periods
  -- competitor effect decays over 4 quarters, recovery proportional to the
  -- (possibly just raised) marketing percentage
  let ms1 : ℚ := entryPeriods.foldl (fun ms (ep : ℕ) =>
      let past : ℤ := (t : ℤ) - (ep : ℤ)
      if 0 < past ∧ past ≤ 4 then
        ms * (1 + (p1.marketing_percentage / 10 * ((past : ℚ) / 4)) / 100)
      else ms) ms0
  -- regulatory change (fires only while the `regulatory_change` flag is unset)
  let fireReg : Bool :=
    decide (o.uReg t < p1.regulatory_change_probability / (periods : ℚ))
      && !s.regulatory_change
  let rev1 : ℚ := if fireReg then s.revenue * (1 - p1.regulatory_impact / 100)
    else s.revenue
  let p2 : Params := if fireReg then
      { p1 with fixed_costs := p1.fixed_costs * (1 + (p1.regulatory_impact / 100) / 2) }
    else p1
  let regPeriods : List ℕ := if fireReg then s.regulatory_change_periods ++ [t]
    else s.regulatory_change_periods
  -- supply chain disruption (may recur; 5% retention dip per active event)
  let fireSup : Bool :=
    decide (o.uSupply t < p2.supply_chain_disruption_probability / (periods : ℚ))
  let rev2 : ℚ := if fireSup then rev1 * (1 - p2.supply_chain_impact / 100) else rev1
  let p3 : Params := if fireSup then
      { p2 with customer_retention_rate := p2.customer_retention_rate * (19/20) }
    else p2
  let disruptions0 : List ℕ := if fireSup then s.supply_chain_disruptions ++ [t]
    else s.supply_chain_disruptions
  -- effects expire after 2 quarters; the retention rate is divided back by
  -- 0.95 once per expired disruption
  let expired : List ℕ := disruptions0.filter (fun (d : ℕ) => decide ((t : ℤ) - (d : ℤ) ≥ 2))
  let disruptions : List ℕ :=
    disruptions0.filter (fun (d : ℕ) => !decide ((t : ℤ) - (d : ℤ) ≥ 2))
  let p4 : Params := { p3 with customer_retention_rate :=
      p3.customer_retention_rate / (19/20 : ℚ) ^ expired.length }
  { p := p4
    market_growth := market_growth
    market_size := market_size
    revenue0 := rev2
    market_share0 := ms1
    competitor_entered := s.competitor_entered || fireComp
    competitor_entry_periods := entryPeriods
    regulatory_change := s.regulatory_change || fireReg
    regulatory_change_periods := regPeriods
    supply_chain_disruptions := disruptions }

/-- Result of the growth phase of one period (source lines 399-437). -/
structure GrowthOut where
  customer_count : ℚ
  growth_rate : ℚ
  market_share_factor : ℚ
  market_share : ℚ
  revenue : ℚ

/-- Source lines 399-437: customer-based growth synthesis, seasonality,
market-share update with its `min(max_market_share, ...)` clamp and the
anti-trust reduction, and the revenue update. -/
def stepGrowth (o : Oracle) (rpc maxMarketShare : ℚ) (t : ℕ)
    (e : EventsOut) (s : TrialState) : GrowthOut :=
  let econ_cycle_factor : ℚ := 1 + (1/5) * o.sinEcon t
  let market_share_factor : ℚ := e.market_share0 / maxMarketShare
  let market_saturation_factor : ℚ := 1 - market_share_factor
  let retention_rate : ℚ := e.p.customer_retention_rate / 100
  let existing_customers : ℚ := s.customer_count * retention_rate
  -- customer_acquisition_rate is the constant 0.1 local of line 337
  let acquisition_rate : ℚ := (1/10) * market_saturation_factor * (1 + e.market_growth)
  let new_customers : ℚ := s.customer_count * acquisition_rate
  let customer_count : ℚ := existing_customers + new_customers
  -- customer_value_growth ~ Normal(0.005, 0.002)
  let customer_value_growth : ℚ := 1/200 + (1/500) * o.zCvg t
  let growth_from_customers : ℚ := customer_count / (e.revenue0 / rpc) - 1
  let growth_rate0 : ℚ := (growth_from_customers + customer_value_growth) * econ_cycle_factor
  let growth_rate : ℚ := growth_rate0 + o.sinSeason t * e.p.seasonality_factor
  let msg : ℚ := e.p.market_share_growth / 100 * market_saturation_factor
  let ms2 : ℚ := min maxMarketShare (e.market_share0 * (1 + msg))
  let market_share : ℚ := if ms2 > 50 ∧ o.uAnti t < 1/5 then ms2 * (9/10) else ms2
  let revenue : ℚ := e.revenue0 * (1 + growth_rate)
  { customer_count := customer_count
    growth_rate := growth_rate
    market_share_factor := market_share_factor
    market_share := market_share
    revenue := revenue }

/-- Result of the cost/funding/debt phase of one period
(source lines 439-520). -/
structure FinanceOut where
  p : Params
  profit : ℚ
  cash_flow : ℚ
  roi : ℚ
  debt : ℚ
  cash : ℚ
  funding_rounds_remaining : ℚ
  last_funding_period : ℤ

/-- Source lines 439-520: fixed/variable/R&D/marketing costs, profit,
funding-round check, debt service, cash update with emergency financing or
forced cost cutting, and the guarded quarterly ROI. -/
def stepFinance (o : Oracle) (periods : ℕ) (t : ℕ) (p : Params)
    (g : GrowthOut) (s : TrialState) : FinanceOut :=
  -- fixed costs: facility-expansion step function or inflation compounding
  let employee_growth : ℚ := max 0 (g.growth_rate * (7/10))
  let fixed_costs : ℚ :=
    if g.revenue > 3000000 ∧ g.revenue / 3000000 > ((t : ℚ) + 1) then
      p.fixed_costs * (6/5 + (t : ℚ) * (1/100))
    else
      p.fixed_costs * (1 + p.cost_inflation_rate / 100) ^ t * (1 + employee_growth)
  -- variable costs with economies of scale (at most a 20% discount)
  let scale_factor : ℚ := max (4/5) (1 - (g.revenue / p.initial_revenue - 1) * (1/20))
  let variable_costs : ℚ := g.revenue * (p.variable_costs_percentage / 100) * scale_factor
  let r_and_d : ℚ := g.revenue * (p.r_and_d_percentage / 100)
  let marketing : ℚ := g.revenue * (p.marketing_percentage / 100)
  let profit : ℚ := g.revenue - fixed_costs - variable_costs - r_and_d - marketing
  -- funding-round check; the runway division is guarded by `profit < 0`
  let cash_runway : ℚ := if profit < 0 then s.cash / |min 0 profit| else 8
  let funding_trigger : Bool :=
    decide (cash_runway < 3 ∨ (g.growth_rate > 1/10 ∧ g.market_share_factor < 1/2))
  let doFund : Bool :=
    decide (s.funding_rounds_remaining > 0) &&
    decide ((t : ℤ) - s.last_funding_period ≥ 4) &&
    funding_trigger &&
    decide (o.uFund t < p.funding_probability / (periods : ℚ))
  let valuation_multiple : ℚ := 4 + g.growth_rate * 100
  let funding : ℚ := if doFund then
      (g.revenue * 4 * valuation_multiple) * (1/10 + (3/10 - 1/10) * o.uFundPct t)
    else 0
  let funding_rounds_remaining : ℚ :=
    if doFund then s.funding_rounds_remaining - 1 else s.funding_rounds_remaining
  let last_funding_period : ℤ := if doFund then (t : ℤ) else s.last_funding_period
  -- debt service: 1.5% quarterly interest; repayment policy by profitability
  let debt_interest : ℚ := s.debt * (3/200)
  let debt_payment : ℚ :=
    if profit > 0 then min s.debt (max (s.debt * (1/20)) (profit * (1/5)))
    else s.debt * (1/50)
  let debt0 : ℚ := max 0 (s.debt - debt_payment + debt_interest)
  let cash_flow : ℚ := profit - debt_payment + funding
  let cash0 : ℚ := s.cash + cash_flow
  -- emergency debt financing, else forced cost cutting, when cash is negative
  let credit_score_factor : ℚ := min 1 (p.credit_score / 750)
  let canBorrow : Bool := decide (debt0 < g.revenue * 2) && decide (p.credit_score > 650)
  let interest_premium : ℚ := (11/10 - credit_score_factor) + (debt0 / g.revenue) * (1/2)
  let new_debt : ℚ := |cash0| * (11/10 + interest_premium)
  let debt : ℚ := if cash0 < 0 && canBorrow then debt0 + new_debt else debt0
  let cash : ℚ :=
    if cash0 < 0 then (if canBorrow then cash0 + new_debt * (9/10) else 0) else cash0
  -- the source also rebinds the dead local `fixed_costs *= 0.9` in the
  -- cost-cutting branch (line 515); it is not read again, so not modelled
  let p5 : Params := if cash0 < 0 && !canBorrow then
      { p with marketing_percentage := p.marketing_percentage * (4/5),
               r_and_d_percentage := p.r_and_d_percentage * (7/10) }
    else p
  -- quarterly ROI, guarded on a positive initial investment (line 520)
  let roi : ℚ :=
    if p5.initial_investment > 0 then (profit / (p5.initial_investment / 4)) * 100
    else 0
  { p := p5
    profit := profit
    cash_flow := cash_flow
    roi := roi
    debt := debt
    cash := cash
    funding_rounds_remaining := funding_rounds_remaining
    last_funding_period := last_funding_period }

/-- One period of the trial engine (the body of `for t in range(periods)`,
lines 339-527).  Takes and returns the parameter dictionary `p` because the
source mutates `adjusted_data` in place (marketing / fixed-costs /
retention / R&D scaling).  Returns the mutated `p`, the next `TrialState`
and the `PeriodRecord` stored for this period. -/
def stepPeriod (o : Oracle) (periods : ℕ) (rpc maxMarketShare : ℚ) (t : ℕ)
    (p : Params) (s : TrialState) : Params × TrialState × PeriodRecord :=
  let e := stepEvents o periods t p s
  let g := stepGrowth o rpc maxMarketShare t e s
  let f := stepFinance o periods t e.p g s
  ( f.p,
    { revenue := g.revenue
      cash := f.cash
      debt := f.debt
      market_share := g.market_share
      market_size := e.market_size
      customer_count := g.customer_count
      competitor_entered := e.competitor_entered
      competitor_entry_periods := e.competitor_entry_periods
      regulatory_change := e.regulatory_change
      regulatory_change_periods := e.regulatory_change_periods
      supply_chain_disruptions := e.supply_chain_disruptions
      funding_rounds_remaining := f.funding_rounds_remaining
      last_funding_period := f.last_funding_period },
    { revenue := g.revenue
      profit := f.profit
      cash_flow := f.cash_flow
      roi := f.roi
      market_share := g.market_share } )

/-- Runs `fuel` remaining periods starting at period index `t`, threading the
mutable parameter dictionary and collecting the per-period records in order. -/
def trialLoop (o : Oracle) (periods : ℕ) (rpc maxMarketShare : ℚ) :
    ℕ → ℕ → Params → TrialState → Params × List PeriodRecord × TrialState
  | 0, _, p, s => (p, [], s)
  | fuel + 1, t, p, s =>
    let r := stepPeriod o periods rpc maxMarketShare t p s
    let rest := trialLoop o periods rpc maxMarketShare fuel (t + 1) r.1 r.2.1
    (rest.1, r.2.2 :: rest.2.1, rest.2.2)

/-- One full trial (one iteration of `for i in range(iterations)`):
initialises the trial-local state, fixes the per-trial market-share ceiling
`min(80, market_share * 5)` (line 312), and runs all periods. -/
def runTrial (o : Oracle) (periods : ℕ) (rpc imsize : ℚ) (p : Params) :
    Params × List PeriodRecord × TrialState :=
  let maxMarketShare : ℚ := min 80 (p.market_share * 5)
  trialLoop o periods rpc maxMarketShare periods 0 p (initState p rpc imsize)

/-- The multipliers of one entry of the `scenario_adjustments` table
(lines 248-279).  Every key of the table is present in any generated
parameter set, so the `if key in adjusted_data` guard of line 286 always
passes for these eight fields. -/
structure ScenarioAdj where
  revenue_growth_rate_mean : ℚ
  market_growth_rate_mean : ℚ
  cost_inflation_rate : ℚ
  competitor_entry_probability : ℚ
  regulatory_change_probability : ℚ
  supply_chain_disruption_probability : ℚ
  customer_retention_rate : ℚ
  funding_probability : ℚ

/-- `scenario_adjustments[scenario]` (line 281).  An unrecognized scenario
string is a `KeyError` in the source, modelled as `none`. -/
def scenario_adjustments (scenario : String) : Option ScenarioAdj :=
  if scenario = "optimistic" then
    some ⟨13/10, 6/5, 4/5, 7/10, 7/10, 7/10, 11/10, 13/10⟩
  else if scenario = "neutral" then
    some ⟨1, 1, 1, 1, 1, 1, 1, 1⟩
  else if scenario = "pessimistic" then
    some ⟨7/10, 7/10, 6/5, 13/10, 13/10, 13/10, 9/10, 3/5⟩
  else none

/-- Lines 284-287: `adjusted_data = company_data.copy()` followed by the
in-place multiplications.  A pure function of the input parameter set. -/
def applyScenario (p : Params) (a : ScenarioAdj) : Params :=
  { p with
    revenue_growth_rate_mean := p.revenue_growth_rate_mean * a.revenue_growth_rate_mean
    market_growth_rate_mean := p.market_growth_rate_mean * a.market_growth_rate_mean
    cost_inflation_rate := p.cost_inflation_rate * a.cost_inflation_rate
    competitor_entry_probability :=
      p.competitor_entry_probability * a.competitor_entry_probability
    regulatory_change_probability :=
      p.regulatory_change_probability * a.regulatory_change_probability
    supply_chain_disruption_probability :=
      p.supply_chain_disruption_probability * a.supply_chain_disruption_probability
    customer_retention_rate := p.customer_retention_rate * a.customer_retention_rate
    funding_probability := p.funding_probability * a.funding_probability }

/-- What the orchestrator keeps of one trial: the recorded rows and the two
terminal outcome flags of lines 529-534, evaluated on the state after the
last period. -/
structure TrialOut where
  rcds : List PeriodRecord
  bankrupt : Bool
  high_growth : Bool
  deriving DecidableEq

/-- One orchestrator iteration: runs the trial, evaluates the terminal
outcome flags on the final state (`cash <= 0 and debt > 1.5 *
initial_investment`; `revenue > 3 * initial_revenue`), and returns the
parameter dictionary as the trial left it (the source never copies
`adjusted_data` per trial). -/
def runTrialOut (o : Oracle) (periods : ℕ) (rpc imsize : ℚ) (p : Params) :
    Params × TrialOut :=
  let r := runTrial o periods rpc imsize p
  (r.1,
   { rcds := r.2.1
     bankrupt := decide (r.2.2.cash ≤ 0 ∧ r.2.2.debt > r.1.initial_investment * (3/2))
     high_growth := decide (r.2.2.revenue > r.1.initial_revenue * 3) })

/-- `for i in range(iterations)` (line 302): one oracle per iteration, the
parameter dictionary threaded through all trials in order. -/
def runTrials (periods : ℕ) (rpc imsize : ℚ) :
    Params → List Oracle → Params × List TrialOut
  | p, [] => (p, [])
  | p, o :: os =>
    let r := runTrialOut o periods rpc imsize p
    let rest := runTrials periods rpc imsize r.1 os
    (rest.1, r.2 :: rest.2)

/-- `np.percentile` (linear interpolation) applied to an already sorted
list: with `n` values, the virtual index is `h = q * (n - 1) / 100`; the
result interpolates between the entries at `floor(h)` and `floor(h) + 1`
(clipped to the last index). -/
def percentileOfSorted (l : List ℚ) (q : ℚ) : ℚ :=
  let n := l.length
  let h : ℚ := q * ((n : ℚ) - 1) / 100
  let lo : ℕ := min (n - 1) ⌊h⌋.toNat
  let hi : ℕ := min (n - 1) (lo + 1)
  let a := l.getD lo 0
  let b := l.getD hi 0
  a + (h - (lo : ℚ)) * (b - a)

/-- `np.percentile(values, q)`: sort, then interpolate. -/
def npPercentile (l : List ℚ) (q : ℚ) : ℚ :=
  percentileOfSorted (List.insertionSort (· ≤ ·) l) q

/-- The percentile thresholds returned for revenue and profit
(lines 537-547). -/
structure Thresholds where
  low_10th : ℚ
  median : ℚ
  high_90th : ℚ

/-- The ROI bucket probabilities of lines 568-573, in percent. -/
structure RoiThresholds where
  negative : ℚ
  zero_to_10 : ℚ
  ten_to_20 : ℚ
  twenty_plus : ℚ

/-- `np.mean(rows, axis=0)`: per-period column means over `n` trials. -/
def colMeans (rows : List (List ℚ)) (periods : ℕ) (n : ℚ) : List ℚ :=
  (List.range periods).map (fun t => ((rows.map (fun r => r.getD t 0)).sum) / n)

/-- The dictionary returned by `run_monte_carlo_simulation` (lines 575-597).
The `std_*` arrays of the source involve a square root (an irrational
operation on ℚ) and are not referenced by any verified property; they are
the only omitted fields. -/
structure SimResult where
  revenue_projections : List (List ℚ)
  profit_projections : List (List ℚ)
  cash_flow_projections : List (List ℚ)
  roi_projections : List (List ℚ)
  market_share_projections : List (List ℚ)
  avg_revenue : List ℚ
  avg_profit : List ℚ
  avg_cash_flow : List ℚ
  avg_roi : List ℚ
  avg_market_share : List ℚ
  revenue_thresholds : Thresholds
  profit_thresholds : Thresholds
  bankruptcy_probability : ℚ
  high_growth_probability : ℚ
  profitability_probability : ℚ
  roi_thresholds : RoiThresholds

/-- The final-period column `arr[:, -1]` of a projection matrix. -/
def finalColumn (rows : List (List ℚ)) : List ℚ :=
  rows.map (fun r => r.getLastD 0)

/-- The body of `run_monte_carlo_simulation` after the scenario adjustment
(lines 289-597): runs the trials with the shared parameter dictionary and
aggregates.  `saasInStr` is the value of `"SaaS" in str(company_data)`
(lines 336 and 420); `iterations` is the length of `oracles`. -/
def run_monte_carlo_core (p : Params) (saasInStr : Bool) (periods : ℕ)
    (oracles : List Oracle) : SimResult :=
  let rpc : ℚ := if saasInStr then 1000 else 100
  let imsize : ℚ := p.initial_revenue / (p.market_share / 100)
  let iterations : ℚ := (oracles.length : ℚ)
  let outs := (runTrials periods rpc imsize p oracles).2
  let revenueP := outs.map (fun tr => tr.rcds.map (·.revenue))
  let profitP := outs.map (fun tr => tr.rcds.map (·.profit))
  let cashFlowP := outs.map (fun tr => tr.rcds.map (·.cash_flow))
  let roiP := outs.map (fun tr => tr.rcds.map (·.roi))
  let shareP := outs.map (fun tr => tr.rcds.map (·.market_share))
  let finalRevenue := finalColumn revenueP
  let finalProfit := finalColumn profitP
  let finalRoi := finalColumn roiP
  { revenue_projections := revenueP
    profit_projections := profitP
    cash_flow_projections := cashFlowP
    roi_projections := roiP
    market_share_projections := shareP
    avg_revenue := colMeans revenueP periods iterations
    avg_profit := colMeans profitP periods iterations
    avg_cash_flow := colMeans cashFlowP periods iterations
    avg_roi := colMeans roiP periods iterations
    avg_market_share := colMeans shareP periods iterations
    revenue_thresholds :=
      { low_10th := npPercentile finalRevenue 10
        median := npPercentile finalRevenue 50
        high_90th := npPercentile finalRevenue 90 }
    profit_thresholds :=
      { low_10th := npPercentile finalProfit 10
        median := npPercentile finalProfit 50
        high_90th := npPercentile finalProfit 90 }
    bankruptcy_probability := ((outs.countP (·.bankrupt) : ℚ)) / iterations * 100
    high_growth_probability := ((outs.countP (·.high_growth) : ℚ)) / iterations * 100
    profitability_probability :=
      ((finalProfit.countP (fun x => decide (x > 0)) : ℚ)) / iterations * 100
    roi_thresholds :=
      { negative := ((finalRoi.countP (fun x => decide (x < 0)) : ℚ)) / iterations * 100
        zero_to_10 :=
          ((finalRoi.countP (fun x => decide (0 ≤ x ∧ x < 10)) : ℚ)) / iterations * 100
        ten_to_20 :=
          ((finalRoi.countP (fun x => decide (10 ≤ x ∧ x < 20)) : ℚ)) / iterations * 100
        twenty_plus :=
          ((finalRoi.countP (fun x => decide (20 ≤ x)) : ℚ)) / iterations * 100 } }

/-- `run_monte_carlo_simulation(company_data, periods, iterations, scenario)`
(line 234).  `scenario_adjustments[scenario]` raises `KeyError` for an
unrecognized scenario (modelled as `none`); otherwise the scenario-adjusted
copy of the parameters is handed to the trial loop. -/
def run_monte_carlo_simulation (company_data : Params) (saasInStr : Bool)
    (periods : ℕ) (oracles : List Oracle) (scenario : String) : Option SimResult :=
  match scenario_adjustments scenario with
  | none => none
  | some adj => some (run_monte_carlo_core (applyScenario company_data adj) saasInStr periods oracles)

/-- One row of the `industry_params` table of `generate_company_data`
(lines 28-79).  `seasonality` is `none` for SaaS and Manufacturing, whose
rows have no `seasonality_factor` key. -/
structure IndustryBase where
  revenue_growth_rate_mean : ℚ
  revenue_growth_volatility : ℚ
  variable_costs_percentage : ℚ
  fixed_costs_base : ℚ
  r_and_d_percentage : ℚ
  marketing_percentage : ℚ
  customer_retention_rate : ℚ
  market_growth_rate_mean : ℚ
  industry_cyclicality : ℚ
  market_volatility : ℚ
  seasonality : Option ℚ

/-- The `industry_params` rows.  Callers go through the explicit fallback of
lines 159-160, so the default arm is unreachable in practice. -/
def industryBaseOf (industry : String) : IndustryBase :=
  if industry = "Manufacturing" then
    ⟨8, 5, 60, 2000000, 5, 8, 90, 6, 4, 6, none⟩
  else if industry = "Retail" then
    ⟨10, 8, 70, 1500000, 2, 12, 70, 5, 5, 9, some (1/4)⟩
  else if industry = "Biotech" then
    ⟨15, 20, 40, 4000000, 25, 10, 95, 12, 1, 15, some (1/20)⟩
  else
    ⟨25, 10, 30, 800000, 15, 15, 85, 20, 2, 8, none⟩

/-- The recognized industry tags; anything else falls back to SaaS
(lines 159-160). -/
def validIndustry (industry : String) : Bool :=
  industry = "SaaS" || industry = "Manufacturing" || industry = "Retail" ||
    industry = "Biotech"

/-- One row of the `size_adjustments` table (lines 82-131): `(min, max)`
ranges produce uniform draws; scalars multiply an existing key.  The
`competitor_entry_probability` and `supply_chain_disruption_probability`
scalars of the table are retained here for completeness, but the source
never applies them: at the time of the loop of lines 166-173 those keys are
not yet in `company_data`, so the `if key in company_data` branch skips
them. -/
structure SizeAdj where
  initial_investment : ℚ × ℚ
  initial_revenue : ℚ × ℚ
  current_cash_reserves : ℚ × ℚ
  debt_level : ℚ × ℚ
  revenue_growth_rate_mean : ℚ
  revenue_growth_volatility : ℚ
  market_share : ℚ × ℚ
  employee_count : ℚ × ℚ
  funding_rounds : ℚ × ℚ
  funding_probability : ℚ × ℚ
  funding_amount_mean : ℚ × ℚ
  competitor_entry_probability : ℚ
  supply_chain_disruption_probability : ℚ
  credit_score : ℚ × ℚ

/-- `size_adjustments[size]` (line 165): a `KeyError` for an unrecognized
size tier, modelled as `none`. -/
def size_adjustments (size : String) : Option SizeAdj :=
  if size = "startup" then
    some ⟨(500000, 3000000), (100000, 2000000), (200000, 1000000), (0, 500000),
      3/2, 13/10, (1/10, 2), (5, 50), (1, 4), (3/10, 7/10),
      (500000, 3000000), 13/10, 6/5, (650, 750)⟩
  else if size = "growth" then
    some ⟨(2000000, 10000000), (1000000, 10000000), (500000, 3000000),
      (500000, 3000000), 1, 1, (2, 8), (50, 200), (0, 2), (1/5, 1/2),
      (2000000, 10000000), 1, 1, (680, 780)⟩
  else if size = "established" then
    some ⟨(5000000, 50000000), (10000000, 100000000), (2000000, 20000000),
      (2000000, 20000000), 3/5, 7/10, (5, 25), (200, 1000), (0, 1),
      (1/10, 3/10), (5000000, 30000000), 4/5, 9/10, (700, 820)⟩
  else none

/-- One row of the `market_adjustments` table (lines 134-156).  Only the
`revenue_growth_rate_mean`, `market_growth_rate_mean` and
`funding_probability` multipliers are ever applied: the
`competitor_entry_probability` and `cost_inflation_rate` keys are not in
`company_data` when the loop of lines 177-179 runs. -/
structure MarketAdj where
  revenue_growth_rate_mean : ℚ
  market_growth_rate_mean : ℚ
  funding_probability : ℚ
  competitor_entry_probability : ℚ
  cost_inflation_rate : ℚ

/-- `market_adjustments[market_condition]` (line 176): a `KeyError` for an
unrecognized market condition, modelled as `none`. -/
def market_adjustments (market_condition : String) : Option MarketAdj :=
  if market_condition = "boom" then some ⟨13/10, 7/5, 13/10, 6/5, 11/10⟩
  else if market_condition = "normal" then some ⟨1, 1, 1, 1, 1⟩
  else if market_condition = "recession" then some ⟨3/5, 2/5, 1/2, 7/10, 4/5⟩
  else none

/-- The random/transcendental inputs of `generate_company_data`, one named
field per `np.random.uniform` call site (each `u*` stands for a uniform
draw on `[0, 1)`, so `uniform(a, b)` becomes `a + (b - a) * u`), plus
`qconv`, which stands for the annual-to-quarterly compound conversion
`x ↦ ((1 + x/100) ** 0.25 - 1) * 100` of line 230 (a real power, abstracted
as an oracle function). -/
structure GenOracle where
  uInvest : ℚ
  uRevenue : ℚ
  uCash : ℚ
  uDebt : ℚ
  uShare : ℚ
  uEmployee : ℚ
  uFundRounds : ℚ
  uFundProb : ℚ
  uFundAmount : ℚ
  uCredit : ℚ
  uCompImpact : ℚ
  uRegImpact : ℚ
  uSupplyImpact : ℚ
  uInflation : ℚ
  uProductivity : ℚ
  qconv : ℚ → ℚ

/-- `np.random.uniform(lo, hi)` with standard draw `u`. -/
def unif (range : ℚ × ℚ) (u : ℚ) : ℚ := range.1 + (range.2 - range.1) * u

/-- `generate_company_data(industry_type, size, market_condition)`
(lines 15-232).  An unrecognized industry silently falls back to SaaS
(lines 159-160); an unrecognized size or market condition is a `KeyError`
(lines 165 and 176), modelled as `none`. -/
def generate_company_data (industry_type size market_condition : String)
    (r : GenOracle) : Option Params :=
  match size_adjustments size, market_adjustments market_condition with
  | some sa, some ma =>
    let ind : String := if validIndustry industry_type then industry_type else "SaaS"
    let base := industryBaseOf ind
    -- size tier: uniform draws for the range entries, multipliers for the
    -- scalar entries whose keys exist (growth mean and volatility)
    let rgr0 : ℚ := base.revenue_growth_rate_mean * sa.revenue_growth_rate_mean
    let vol : ℚ := base.revenue_growth_volatility * sa.revenue_growth_volatility
    let employee_count : ℚ := unif sa.employee_count r.uEmployee
    -- market condition multipliers on the keys present at line 177
    let rgr1 : ℚ := rgr0 * ma.revenue_growth_rate_mean
    let mgr : ℚ := base.market_growth_rate_mean * ma.market_growth_rate_mean
    let funding_probability : ℚ :=
      unif sa.funding_probability r.uFundProb * ma.funding_probability
    -- fixed costs from base plus headcount at 100000 salary, quarterly
    let fixed_costs : ℚ := (base.fixed_costs_base + employee_count * 100000) / 4
    -- risk defaults (lines 188-203); the keys are never set before this point
    let regulatory_change_probability : ℚ := if ind = "Biotech" then 1/4 else 1/10
    let regulatory_impact : ℚ :=
      if ind = "Biotech" then unif (10, 30) r.uRegImpact else unif (5, 15) r.uRegImpact
    let supply_chain_disruption_probability : ℚ :=
      if ind = "Manufacturing" ∨ ind = "Retail" then 1/5 else 1/10
    -- inflation default (line 211; the table multiplier was skipped)
    let cost_inflation_rate : ℚ := unif (3/2, 7/2) r.uInflation
    -- market share growth from the (still annual) growth mean (lines 214-220)
    let market_share_growth : ℚ :=
      if size = "startup" then rgr1 / 5
      else if size = "growth" then rgr1 / 8
      else rgr1 / 15
    some
      { initial_investment := unif sa.initial_investment r.uInvest
        initial_revenue := unif sa.initial_revenue r.uRevenue
        current_cash_reserves := unif sa.current_cash_reserves r.uCash
        debt_level := unif sa.debt_level r.uDebt
        market_share := unif sa.market_share r.uShare
        revenue_growth_rate_mean := r.qconv rgr1
        revenue_growth_volatility := vol
        variable_costs_percentage := base.variable_costs_percentage
        fixed_costs_base := base.fixed_costs_base
        fixed_costs := fixed_costs
        r_and_d_percentage := base.r_and_d_percentage
        marketing_percentage := base.marketing_percentage
        customer_retention_rate := base.customer_retention_rate
        market_growth_rate_mean := r.qconv mgr
        industry_cyclicality := base.industry_cyclicality
        market_volatility := base.market_volatility
        seasonality_factor := base.seasonality.getD (1/10)
        competitor_entry_probability := 3/20
        competitor_impact := unif (5, 20) r.uCompImpact
        regulatory_change_probability := regulatory_change_probability
        regulatory_impact := regulatory_impact
        supply_chain_disruption_probability := supply_chain_disruption_probability
        supply_chain_impact := unif (10, 25) r.uSupplyImpact
        cost_inflation_rate := r.qconv cost_inflation_rate
        market_share_growth := market_share_growth
        funding_rounds := unif sa.funding_rounds r.uFundRounds
        funding_probability := funding_probability
        funding_amount_mean := unif sa.funding_amount_mean r.uFundAmount
        credit_score := unif sa.credit_score r.uCredit
        employee_count := employee_count
        employee_productivity := unif (4/5, 6/5) r.uProductivity }
  | _, _ => none

/-- IEEE-aware division: `none` exactly when the denominator is zero, in
which case Python's float arithmetic produces `inf`/`-inf`/`nan` (a
non-finite value) instead of a number.  Used by the `checked*` copies of
the step functions, which track whether a period's arithmetic stays
finite. -/
def fdiv (a b : ℚ) : Option ℚ :=
  if b = 0 then none else some (a / b)

/-- `stepEvents` with every division whose denominator is a run-time value
going through `fdiv`.  Mirrors `stepEvents` line by line. -/
def checkedStepEvents (o : Oracle) (periods : ℕ) (t : ℕ) (p : Params)
    (s : TrialState) : Option EventsOut := do
  let econ_cycle_factor : ℚ := 1 + (1/5) * o.sinEcon t
  let market_cycle_factor : ℚ := 1 + (1/5) * o.sinMarket t
  let market_growth : ℚ :=
    p.market_growth_rate_mean * market_cycle_factor * econ_cycle_factor / 100
      + (p.market_volatility / 100) * o.zMarket t
  let market_size : ℚ := s.market_size * (1 + market_growth)
  let compThreshold ← fdiv p.competitor_entry_probability (periods : ℚ)
  let fireComp : Bool := decide (o.uComp t < compThreshold) && !s.competitor_entered
  let p1 : Params := if fireComp then
      { p with marketing_percentage := p.marketing_percentage * (6/5) }
    else p
  let ms0 : ℚ := if fireComp then
      s.market_share * (1 - p.competitor_impact / 100)
    else s.market_share
  let entryPeriods : List ℕ := if fireComp then s.competitor_entry_periods ++ [t]
    else s.competitor_entry_periods
  let ms1 : ℚ := entryPeriods.foldl (fun ms (ep : ℕ) =>
      let past : ℤ := (t : ℤ) - (ep : ℤ)
      if 0 < past ∧ past ≤ 4 then
        ms * (1 + (p1.marketing_percentage / 10 * ((past : ℚ) / 4)) / 100)
      else ms) ms0
  let regThreshold ← fdiv p1.regulatory_change_probability (periods : ℚ)
  let fireReg : Bool := decide (o.uReg t < regThreshold) && !s.regulatory_change
  let rev1 : ℚ := if fireReg then s.revenue * (1 - p1.regulatory_impact / 100)
    else s.revenue
  let p2 : Params := if fireReg then
      { p1 with fixed_costs := p1.fixed_costs * (1 + (p1.regulatory_impact / 100) / 2) }
    else p1
  let regPeriods : List ℕ := if fireReg then s.regulatory_change_periods ++ [t]
    else s.regulatory_change_periods
  let supThreshold ← fdiv p2.supply_chain_disruption_probability (periods : ℚ)
  let fireSup : Bool := decide (o.uSupply t < supThreshold)
  let rev2 : ℚ := if fireSup then rev1 * (1 - p2.supply_chain_impact / 100) else rev1
  let p3 : Params := if fireSup then
      { p2 with customer_retention_rate := p2.customer_retention_rate * (19/20) }
    else p2
  let disruptions0 : List ℕ := if fireSup then s.supply_chain_disruptions ++ [t]
    else s.supply_chain_disruptions
  let expired : List ℕ := disruptions0.filter (fun (d : ℕ) => decide ((t : ℤ) - (d : ℤ) ≥ 2))
  let disruptions : List ℕ :=
    disruptions0.filter (fun (d : ℕ) => !decide ((t : ℤ) - (d : ℤ) ≥ 2))
  let p4 : Params := { p3 with customer_retention_rate :=
      p3.customer_retention_rate / (19/20 : ℚ) ^ expired.length }
  some
    { p := p4
      market_growth := market_growth
      market_size := market_size
      revenue0 := rev2
      market_share0 := ms1
      competitor_entered := s.competitor_entered || fireComp
      competitor_entry_periods := entryPeriods
      regulatory_change := s.regulatory_change || fireReg
      regulatory_change_periods := regPeriods
      supply_chain_disruptions := disruptions }

/-- `stepGrowth` with `fdiv` at the two run-time divisions: the
market-share ratio and the revenue-denominated customer ratio of line 420
(`customer_count / (revenue / rpc) - 1`), which the source does NOT guard:
with `revenue = 0` IEEE arithmetic yields a non-finite value here. -/
def checkedStepGrowth (o : Oracle) (rpc maxMarketShare : ℚ) (t : ℕ)
    (e : EventsOut) (s : TrialState) : Option GrowthOut := do
  let econ_cycle_factor : ℚ := 1 + (1/5) * o.sinEcon t
  let market_share_factor ← fdiv e.market_share0 maxMarketShare
  let market_saturation_factor : ℚ := 1 - market_share_factor
  let retention_rate : ℚ := e.p.customer_retention_rate / 100
  let existing_customers : ℚ := s.customer_count * retention_rate
  let acquisition_rate : ℚ := (1/10) * market_saturation_factor * (1 + e.market_growth)
  let new_customers : ℚ := s.customer_count * acquisition_rate
  let customer_count : ℚ := existing_customers + new_customers
  let customer_value_growth : ℚ := 1/200 + (1/500) * o.zCvg t
  let customerRatio ← fdiv customer_count (e.revenue0 / rpc)
  let growth_from_customers : ℚ := customerRatio - 1
  let growth_rate0 : ℚ := (growth_from_customers + customer_value_growth) * econ_cycle_factor
  let growth_rate : ℚ := growth_rate0 + o.sinSeason t * e.p.seasonality_factor
  let msg : ℚ := e.p.market_share_growth / 100 * market_saturation_factor
  let ms2 : ℚ := min maxMarketShare (e.market_share0 * (1 + msg))
  let market_share : ℚ := if ms2 > 50 ∧ o.uAnti t < 1/5 then ms2 * (9/10) else ms2
  let revenue : ℚ := e.revenue0 * (1 + growth_rate)
  some
    { customer_count := customer_count
      growth_rate := growth_rate
      market_share_factor := market_share_factor
      market_share := market_share
      revenue := revenue }

/-- `stepFinance` with `fdiv` at every division whose denominator is a
run-time value.  The runway and ROI divisions keep their source guards
(`profit < 0`, `initial_investment > 0`), under which their denominators
are provably nonzero. -/
def checkedStepFinance (o : Oracle) (periods : ℕ) (t : ℕ) (p : Params)
    (g : GrowthOut) (s : TrialState) : Option FinanceOut := do
  let employee_growth : ℚ := max 0 (g.growth_rate * (7/10))
  let fixed_costs : ℚ :=
    if g.revenue > 3000000 ∧ g.revenue / 3000000 > ((t : ℚ) + 1) then
      p.fixed_costs * (6/5 + (t : ℚ) * (1/100))
    else
      p.fixed_costs * (1 + p.cost_inflation_rate / 100) ^ t * (1 + employee_growth)
  let scaleRatio ← fdiv g.revenue p.initial_revenue
  let scale_factor : ℚ := max (4/5) (1 - (scaleRatio - 1) * (1/20))
  let variable_costs : ℚ := g.revenue * (p.variable_costs_percentage / 100) * scale_factor
  let r_and_d : ℚ := g.revenue * (p.r_and_d_percentage / 100)
  let marketing : ℚ := g.revenue * (p.marketing_percentage / 100)
  let profit : ℚ := g.revenue - fixed_costs - variable_costs - r_and_d - marketing
  let cash_runway ← if profit < 0 then fdiv s.cash |min 0 profit| else some 8
  let funding_trigger : Bool :=
    decide (cash_runway < 3 ∨ (g.growth_rate > 1/10 ∧ g.market_share_factor < 1/2))
  let fundThreshold ← fdiv p.funding_probability (periods : ℚ)
  let doFund : Bool :=
    decide (s.funding_rounds_remaining > 0) &&
    decide ((t : ℤ) - s.last_funding_period ≥ 4) &&
    funding_trigger &&
    decide (o.uFund t < fundThreshold)
  let valuation_multiple : ℚ := 4 + g.growth_rate * 100
  let funding : ℚ := if doFund then
      (g.revenue * 4 * valuation_multiple) * (1/10 + (3/10 - 1/10) * o.uFundPct t)
    else 0
  let funding_rounds_remaining : ℚ :=
    if doFund then s.funding_rounds_remaining - 1 else s.funding_rounds_remaining
  let last_funding_period : ℤ := if doFund then (t : ℤ) else s.last_funding_period
  let debt_interest : ℚ := s.debt * (3/200)
  let debt_payment : ℚ :=
    if profit > 0 then min s.debt (max (s.debt * (1/20)) (profit * (1/5)))
    else s.debt * (1/50)
  let debt0 : ℚ := max 0 (s.debt - debt_payment + debt_interest)
  let cash_flow : ℚ := profit - debt_payment + funding
  let cash0 : ℚ := s.cash + cash_flow
  let credit_score_factor : ℚ := min 1 (p.credit_score / 750)
  let canBorrow : Bool := decide (debt0 < g.revenue * 2) && decide (p.credit_score > 650)
  let leverage ← if cash0 < 0 && canBorrow then fdiv debt0 g.revenue else some 0
  let interest_premium : ℚ := (11/10 - credit_score_factor) + leverage * (1/2)
  let new_debt : ℚ := |cash0| * (11/10 + interest_premium)
  let debt : ℚ := if cash0 < 0 && canBorrow then debt0 + new_debt else debt0
  let cash : ℚ :=
    if cash0 < 0 then (if canBorrow then cash0 + new_debt * (9/10) else 0) else cash0
  let p5 : Params := if cash0 < 0 && !canBorrow then
      { p with marketing_percentage := p.marketing_percentage * (4/5),
               r_and_d_percentage := p.r_and_d_percentage * (7/10) }
    else p
  let roi ← if p5.initial_investment > 0 then
      (fdiv profit (p5.initial_investment / 4)).map (· * 100)
    else some 0
  some
    { p := p5
      profit := profit
      cash_flow := cash_flow
      roi := roi
      debt := debt
      cash := cash
      funding_rounds_remaining := funding_rounds_remaining
      last_funding_period := last_funding_period }

/-- One checked period: `none` as soon as IEEE arithmetic would have
produced a non-finite intermediate value. -/
def checkedStepPeriod (o : Oracle) (periods : ℕ) (rpc maxMarketShare : ℚ)
    (t : ℕ) (p : Params) (s : TrialState) :
    Option (Params × TrialState × PeriodRecord) := do
  let e ← checkedStepEvents o periods t p s
  let g ← checkedStepGrowth o rpc maxMarketShare t e s
  let f ← checkedStepFinance o periods t e.p g s
  some
    ( f.p,
      { revenue := g.revenue
        cash := f.cash
        debt := f.debt
        market_share := g.market_share
        market_size := e.market_size
        customer_count := g.customer_count
        competitor_entered := e.competitor_entered
        competitor_entry_periods := e.competitor_entry_periods
        regulatory_change := e.regulatory_change
        regulatory_change_periods := e.regulatory_change_periods
        supply_chain_disruptions := e.supply_chain_disruptions
        funding_rounds_remaining := f.funding_rounds_remaining
        last_funding_period := f.last_funding_period },
      { revenue := g.revenue
        profit := f.profit
        cash_flow := f.cash_flow
        roi := f.roi
        market_share := g.market_share } )

/-- The checked period loop. -/
def checkedTrialLoop (o : Oracle) (periods : ℕ) (rpc maxMarketShare : ℚ) :
    ℕ → ℕ → Params → TrialState →
      Option (Params × List PeriodRecord × TrialState)
  | 0, _, p, s => some (p, [], s)
  | fuel + 1, t, p, s => do
    let (p', s', rcd) ← checkedStepPeriod o periods rpc maxMarketShare t p s
    let (pf, rcds, sf) ← checkedTrialLoop o periods rpc maxMarketShare fuel (t + 1) p' s'
    some (pf, rcd :: rcds, sf)

/-- One checked trial: `none` exactly when some period's arithmetic would
go non-finite in IEEE floats with nothing replacing the value. -/
def checkedRunTrial (o : Oracle) (periods : ℕ) (rpc imsize : ℚ) (p : Params) :
    Option (Params × List PeriodRecord × TrialState) :=
  let maxMarketShare : ℚ := min 80 (p.market_share * 5)
  checkedTrialLoop o periods rpc maxMarketShare periods 0 p (initState p rpc imsize)

/-! ### Parameter-dictionary invariants

The trial engine mutates only `marketing_percentage`, `fixed_costs`,
`customer_retention_rate` and `r_and_d_percentage` of the shared
dictionary; in particular `initial_investment` and `initial_revenue` are
never written. -/

theorem stepEvents_p_initial_investment (o : Oracle) (periods t : ℕ)
    (p : Params) (s : TrialState) :
    (stepEvents o periods t p s).p.initial_investment = p.initial_investment := by
  simp only [stepEvents]
  split_ifs <;> rfl

theorem stepEvents_p_initial_revenue (o : Oracle) (periods t : ℕ)
    (p : Params) (s : TrialState) :
    (stepEvents o periods t p s).p.initial_revenue = p.initial_revenue := by
  simp only [stepEvents]
  split_ifs <;> rfl

theorem stepFinance_p_initial_investment (o : Oracle) (periods t : ℕ)
    (p : Params) (g : GrowthOut) (s : TrialState) :
    (stepFinance o periods t p g s).p.initial_investment = p.initial_investment := by
  simp only [stepFinance]
  split_ifs <;> rfl

theorem stepFinance_p_initial_revenue (o : Oracle) (periods t : ℕ)
    (p : Params) (g : GrowthOut) (s : TrialState) :
    (stepFinance o periods t p g s).p.initial_revenue = p.initial_revenue := by
  simp only [stepFinance]
  split_ifs <;> rfl

theorem stepPeriod_p_initial_investment (o : Oracle) (periods : ℕ)
    (rpc maxMarketShare : ℚ) (t : ℕ) (p : Params) (s : TrialState) :
    (stepPeriod o periods rpc maxMarketShare t p s).1.initial_investment
      = p.initial_investment := by
  simp only [stepPeriod]
  rw [stepFinance_p_initial_investment, stepEvents_p_initial_investment]

theorem stepPeriod_p_initial_revenue (o : Oracle) (periods : ℕ)
    (rpc maxMarketShare : ℚ) (t : ℕ) (p : Params) (s : TrialState) :
    (stepPeriod o periods rpc maxMarketShare t p s).1.initial_revenue
      = p.initial_revenue := by
  simp only [stepPeriod]
  rw [stepFinance_p_initial_revenue, stepEvents_p_initial_revenue]

theorem trialLoop_p_initial_investment (o : Oracle) (periods : ℕ)
    (rpc maxMarketShare : ℚ) :
    ∀ (fuel t : ℕ) (p : Params) (s : TrialState),
      (trialLoop o periods rpc maxMarketShare fuel t p s).1.initial_investment
        = p.initial_investment := by
  intro fuel
  induction fuel with
  | zero => intro t p s; rfl
  | succ n ih =>
    intro t p s
    simp only [trialLoop]
    rw [ih]
    exact stepPeriod_p_initial_investment o periods rpc maxMarketShare t p s

theorem trialLoop_p_initial_revenue (o : Oracle) (periods : ℕ)
    (rpc maxMarketShare : ℚ) :
    ∀ (fuel t : ℕ) (p : Params) (s : TrialState),
      (trialLoop o periods rpc maxMarketShare fuel t p s).1.initial_revenue
        = p.initial_revenue := by
  intro fuel
  induction fuel with
  | zero => intro t p s; rfl
  | succ n ih =>
    intro t p s
    simp only [trialLoop]
    rw [ih]
    exact stepPeriod_p_initial_revenue o periods rpc maxMarketShare t p s

theorem runTrial_p_initial_investment (o : Oracle) (periods : ℕ)
    (rpc imsize : ℚ) (p : Params) :
    (runTrial o periods rpc imsize p).1.initial_investment = p.initial_investment :=
  trialLoop_p_initial_investment o periods rpc _ periods 0 p _

theorem runTrial_p_initial_revenue (o : Oracle) (periods : ℕ)
    (rpc imsize : ℚ) (p : Params) :
    (runTrial o periods rpc imsize p).1.initial_revenue = p.initial_revenue :=
  trialLoop_p_initial_revenue o periods rpc _ periods 0 p _

/-! ### C4: the neutral scenario adjustment is the numeric identity -/

/-- C4: for every parameter set `p`, the scenario adjustment with scenario
`"neutral"` looks up the all-ones multiplier row and returns a parameter
set numerically equal to `p` (and, being a pure function of `p`, it leaves
the input itself untouched). -/
theorem c4_neutral_scenario_identity (p : Params) :
    (scenario_adjustments "neutral").map (applyScenario p) = some p := by
  simp [scenario_adjustments, applyScenario]

/-! ### C10: recorded market share never exceeds the per-trial ceiling -/

theorem antitrust_clamp_le (m x : ℚ) (c : Prop) [Decidable c] :
    (if min m x > 50 ∧ c then min m x * (9/10) else min m x) ≤ m := by
  split_ifs with h
  · have h50 := h.1
    have hm := min_le_left m x
    linarith
  · exact min_le_left m x

theorem stepGrowth_market_share_le (o : Oracle) (rpc maxMarketShare : ℚ)
    (t : ℕ) (e : EventsOut) (s : TrialState) :
    (stepGrowth o rpc maxMarketShare t e s).market_share ≤ maxMarketShare := by
  simp only [stepGrowth]
  exact antitrust_clamp_le maxMarketShare _ _

theorem stepPeriod_record_market_share_le (o : Oracle) (periods : ℕ)
    (rpc maxMarketShare : ℚ) (t : ℕ) (p : Params) (s : TrialState) :
    (stepPeriod o periods rpc maxMarketShare t p s).2.2.market_share
      ≤ maxMarketShare := by
  simp only [stepPeriod]
  exact stepGrowth_market_share_le o rpc maxMarketShare t _ s

theorem trialLoop_market_share_le (o : Oracle) (periods : ℕ)
    (rpc maxMarketShare : ℚ) :
    ∀ (fuel t : ℕ) (p : Params) (s : TrialState),
      ∀ rcd ∈ (trialLoop o periods rpc maxMarketShare fuel t p s).2.1,
        rcd.market_share ≤ maxMarketShare := by
  intro fuel
  induction fuel with
  | zero => intro t p s rcd h; simp [trialLoop] at h
  | succ n ih =>
    intro t p s rcd h
    simp only [trialLoop] at h
    rcases List.mem_cons.mp h with h | h
    · subst h; exact stepPeriod_record_market_share_le o periods rpc maxMarketShare t p s
    · exact ih (t + 1) _ _ rcd h

/-- C10: in every trial, every recorded per-period market-share value is at
most `min(80, 5 * starting market share)`: the update of line 430 clamps to
this ceiling, and neither the anti-trust reduction (lines 433-434) nor the
competitor-recovery adjustment (applied before the clamp) can leave a
recorded value above it. -/
theorem c10_market_share_ceiling (o : Oracle) (periods : ℕ)
    (rpc imsize : ℚ) (p : Params) :
    ∀ rcd ∈ (runTrial o periods rpc imsize p).2.1,
      rcd.market_share ≤ min 80 (p.market_share * 5) := by
  intro rcd h
  simp only [runTrial] at h
  exact trialLoop_market_share_le o periods rpc _ periods 0 p _ rcd h

/-! ### C7: zero initial investment forces a recorded ROI of zero -/

theorem costcut_initial_investment (p : Params) (c : Prop) [Decidable c]
    (m r : ℚ) :
    (if c then
        { p with marketing_percentage := m, r_and_d_percentage := r }
      else p).initial_investment = p.initial_investment := by
  split_ifs <;> rfl

theorem stepFinance_roi_zero (o : Oracle) (periods t : ℕ) (p : Params)
    (g : GrowthOut) (s : TrialState) (h : p.initial_investment = 0) :
    (stepFinance o periods t p g s).roi = 0 := by
  simp only [stepFinance]
  rw [costcut_initial_investment, h]
  norm_num

theorem stepPeriod_record_roi_zero (o : Oracle) (periods : ℕ)
    (rpc maxMarketShare : ℚ) (t : ℕ) (p : Params) (s : TrialState)
    (h : p.initial_investment = 0) :
    (stepPeriod o periods rpc maxMarketShare t p s).2.2.roi = 0 := by
  simp only [stepPeriod]
  refine stepFinance_roi_zero o periods t _ _ s ?_
  rw [stepEvents_p_initial_investment]
  exact h

theorem trialLoop_roi_zero (o : Oracle) (periods : ℕ) (rpc maxMarketShare : ℚ) :
    ∀ (fuel t : ℕ) (p : Params) (s : TrialState), p.initial_investment = 0 →
      ∀ rcd ∈ (trialLoop o periods rpc maxMarketShare fuel t p s).2.1,
        rcd.roi = 0 := by
  intro fuel
  induction fuel with
  | zero => intro t p s _ rcd h; simp [trialLoop] at h
  | succ n ih =>
    intro t p s hp rcd h
    simp only [trialLoop] at h
    rcases List.mem_cons.mp h with h | h
    · subst h; exact stepPeriod_record_roi_zero o periods rpc maxMarketShare t p s hp
    · refine ih (t + 1) _ _ ?_ rcd h
      rw [stepPeriod_p_initial_investment]
      exact hp

theorem runTrial_roi_zero (o : Oracle) (periods : ℕ) (rpc imsize : ℚ)
    (p : Params) (hp : p.initial_investment = 0) :
    ∀ rcd ∈ (runTrial o periods rpc imsize p).2.1, rcd.roi = 0 := by
  intro rcd h
  simp only [runTrial] at h
  exact trialLoop_roi_zero o periods rpc _ periods 0 p _ hp rcd h

theorem runTrials_roi_zero (periods : ℕ) (rpc imsize : ℚ) :
    ∀ (os : List Oracle) (p : Params), p.initial_investment = 0 →
      ∀ out ∈ (runTrials periods rpc imsize p os).2,
        ∀ rcd ∈ out.rcds, rcd.roi = 0 := by
  intro os
  induction os with
  | nil => intro p _ out h; simp [runTrials] at h
  | cons o os ih =>
    intro p hp out h
    simp only [runTrials] at h
    rcases List.mem_cons.mp h with h | h
    · subst h
      simp only [runTrialOut]
      intro rcd hr
      exact runTrial_roi_zero o periods rpc imsize p hp rcd hr
    · refine ih _ ?_ out h
      simp only [runTrialOut]
      rw [runTrial_p_initial_investment]
      exact hp

/-- C7: with `initial_investment = 0` the simulation still runs (no
exception path exists for it) and the recorded ROI is `0` for every period
of every trial: the ROI division at line 520 is guarded by
`initial_investment > 0`, and the scenario adjustment never scales
`initial_investment`. -/
theorem c7_zero_investment_roi (p : Params) (saasInStr : Bool) (periods : ℕ)
    (oracles : List Oracle) (scenario : String) (r : SimResult)
    (hp : p.initial_investment = 0)
    (hr : run_monte_carlo_simulation p saasInStr periods oracles scenario = some r) :
    ∀ row ∈ r.roi_projections, ∀ x ∈ row, x = 0 := by
  intro row hrow x hx
  unfold run_monte_carlo_simulation at hr
  rcases ha : scenario_adjustments scenario with _ | adj <;> rw [ha] at hr
  · exact absurd hr (by simp)
  · have hr' : run_monte_carlo_core (applyScenario p adj) saasInStr periods oracles = r :=
      Option.some_injective _ hr
    have hadj : (applyScenario p adj).initial_investment = 0 := hp
    subst hr'
    simp only [run_monte_carlo_core] at hrow
    rcases List.mem_map.mp hrow with ⟨out, hout, hrow'⟩
    subst hrow'
    rcases List.mem_map.mp hx with ⟨rcd, hrcd, hx'⟩
    subst hx'
    exact runTrials_roi_zero periods _ _ oracles (applyScenario p adj) hadj out hout rcd hrcd

/-! ### C6: terminal outcome flags are functions of the final state only -/

/-- C6: for every completed trial, the bankruptcy flag is set exactly when
the state after the last period satisfies `cash <= 0` and
`debt > 1.5 * initial_investment`, and the high-growth flag exactly when
the final revenue exceeds `3 * initial_revenue` — both against the trial's
input parameter set, whose `initial_investment` / `initial_revenue` entries
are never mutated during the trial. -/
theorem c6_outcome_flags (o : Oracle) (periods : ℕ) (rpc imsize : ℚ)
    (p : Params) :
    ((runTrialOut o periods rpc imsize p).2.bankrupt = true ↔
      ((runTrial o periods rpc imsize p).2.2.cash ≤ 0 ∧
        (runTrial o periods rpc imsize p).2.2.debt > p.initial_investment * (3/2)))
    ∧ ((runTrialOut o periods rpc imsize p).2.high_growth = true ↔
      (runTrial o periods rpc imsize p).2.2.revenue > p.initial_revenue * 3) := by
  constructor
  · simp [runTrialOut, runTrial_p_initial_investment]
  · simp [runTrialOut, runTrial_p_initial_revenue]

/-! ### C8: competitor entry and regulatory change fire at most once -/

theorem flagged_append_invariant (b entered : Bool) (l : List ℕ) (t : ℕ)
    (h1 : entered = false → l = []) (h2 : l.length ≤ 1) :
    ((entered || (b && !entered)) = false →
      (if b && !entered then l ++ [t] else l) = [])
    ∧ (if b && !entered then l ++ [t] else l).length ≤ 1 := by
  cases entered <;> cases b <;> simp_all

/-- Invariant: once fired, a one-shot event's flag stays set, its period
list only receives the single firing period, and a firing requires the flag
to be unset. -/
def onceInvariant (flag : Bool) (l : List ℕ) : Prop :=
  (flag = false → l = []) ∧ l.length ≤ 1

theorem stepPeriod_once_invariant (o : Oracle) (periods : ℕ)
    (rpc maxMarketShare : ℚ) (t : ℕ) (p : Params) (s : TrialState)
    (hc : onceInvariant s.competitor_entered s.competitor_entry_periods)
    (hr : onceInvariant s.regulatory_change s.regulatory_change_periods) :
    onceInvariant (stepPeriod o periods rpc maxMarketShare t p s).2.1.competitor_entered
        (stepPeriod o periods rpc maxMarketShare t p s).2.1.competitor_entry_periods
    ∧ onceInvariant (stepPeriod o periods rpc maxMarketShare t p s).2.1.regulatory_change
        (stepPeriod o periods rpc maxMarketShare t p s).2.1.regulatory_change_periods := by
  constructor
  · simp only [stepPeriod, stepEvents, onceInvariant]
    exact flagged_append_invariant _ _ _ _ hc.1 hc.2
  · simp only [stepPeriod, stepEvents, onceInvariant]
    exact flagged_append_invariant _ _ _ _ hr.1 hr.2

theorem trialLoop_once_invariant (o : Oracle) (periods : ℕ)
    (rpc maxMarketShare : ℚ) :
    ∀ (fuel t : ℕ) (p : Params) (s : TrialState),
      onceInvariant s.competitor_entered s.competitor_entry_periods →
      onceInvariant s.regulatory_change s.regulatory_change_periods →
      onceInvariant
          (trialLoop o periods rpc maxMarketShare fuel t p s).2.2.competitor_entered
          (trialLoop o periods rpc maxMarketShare fuel t p s).2.2.competitor_entry_periods
        ∧ onceInvariant
          (trialLoop o periods rpc maxMarketShare fuel t p s).2.2.regulatory_change
          (trialLoop o periods rpc maxMarketShare fuel t p s).2.2.regulatory_change_periods := by
  intro fuel
  induction fuel with
  | zero => intro t p s hc hr; exact ⟨hc, hr⟩
  | succ n ih =>
    intro t p s hc hr
    simp only [trialLoop]
    have hstep := stepPeriod_once_invariant o periods rpc maxMarketShare t p s hc hr
    exact ih (t + 1) _ _ hstep.1 hstep.2

/-- C8: in every trial, the competitor-entry event and the regulatory-change
event each fire at most once over all periods: each firing appends the
current period to the corresponding period list and sets the one-shot flag
that every later period's trigger condition requires to be unset, so the
final lists hold at most one entry each. -/
theorem c8_events_at_most_once (o : Oracle) (periods : ℕ)
    (rpc imsize : ℚ) (p : Params) :
    (runTrial o periods rpc imsize p).2.2.competitor_entry_periods.length ≤ 1
    ∧ (runTrial o periods rpc imsize p).2.2.regulatory_change_periods.length ≤ 1 := by
  have h := trialLoop_once_invariant o periods rpc (min 80 (p.market_share * 5))
    periods 0 p (initState p rpc imsize)
    (by constructor <;> simp [initState]) (by constructor <;> simp [initState])
  exact ⟨h.1.2, h.2.2⟩

/-! ### C5: probabilities lie in [0,100]; ROI buckets sum to 100 -/

theorem runTrials_length (periods : ℕ) (rpc imsize : ℚ) :
    ∀ (os : List Oracle) (p : Params),
      (runTrials periods rpc imsize p os).2.length = os.length := by
  intro os
  induction os with
  | nil => intro p; rfl
  | cons o os ih =>
    intro p
    simp only [runTrials, List.length_cons]
    rw [ih]

theorem pct_bounds (c n : ℕ) (hc : c ≤ n) (hn : 0 < n) :
    0 ≤ ((c : ℚ) / (n : ℚ)) * 100 ∧ ((c : ℚ) / (n : ℚ)) * 100 ≤ 100 := by
  have h1 : (c : ℚ) ≤ (n : ℚ) := by exact_mod_cast hc
  have h2 : (0 : ℚ) < (n : ℚ) := by exact_mod_cast hn
  constructor
  · positivity
  · rw [div_mul_eq_mul_div, div_le_iff₀ h2]
    nlinarith

theorem pct_sum_eq_100 (c1 c2 c3 c4 n : ℕ) (h : c1 + c2 + c3 + c4 = n)
    (hn : 0 < n) :
    ((c1 : ℚ) / (n : ℚ)) * 100 + ((c2 : ℚ) / (n : ℚ)) * 100
      + ((c3 : ℚ) / (n : ℚ)) * 100 + ((c4 : ℚ) / (n : ℚ)) * 100 = 100 := by
  have h2 : ((n : ℚ)) ≠ 0 := by
    have : (0 : ℚ) < (n : ℚ) := by exact_mod_cast hn
    exact ne_of_gt this
  have hq : (c1 : ℚ) + (c2 : ℚ) + (c3 : ℚ) + (c4 : ℚ) = (n : ℚ) := by
    exact_mod_cast h
  field_simp
  linarith

theorem roi_bucket_partition (l : List ℚ) :
    l.countP (fun x => decide (x < 0)) + l.countP (fun x => decide (0 ≤ x ∧ x < 10))
      + l.countP (fun x => decide (10 ≤ x ∧ x < 20))
      + l.countP (fun x => decide (20 ≤ x)) = l.length := by
  induction l with
  | nil => rfl
  | cons a l ih =>
    simp only [List.countP_cons, List.length_cons, decide_eq_true_eq]
    by_cases h1 : a < 0
    · have h2 : ¬(0 ≤ a ∧ a < 10) := fun hh => absurd hh.1 (not_le.mpr h1)
      have h3 : ¬(10 ≤ a ∧ a < 20) := fun hh => by linarith [hh.1]
      have h4 : ¬(20 ≤ a) := by linarith
      rw [if_pos h1, if_neg h2, if_neg h3, if_neg h4]
      omega
    · by_cases h2 : a < 10
      · have h2' : 0 ≤ a ∧ a < 10 := ⟨not_lt.mp h1, h2⟩
        have h3 : ¬(10 ≤ a ∧ a < 20) := fun hh => by linarith [hh.1]
        have h4 : ¬(20 ≤ a) := by linarith
        rw [if_neg h1, if_pos h2', if_neg h3, if_neg h4]
        omega
      · by_cases h3 : a < 20
        · have h3' : 10 ≤ a ∧ a < 20 := ⟨not_lt.mp h2, h3⟩
          have h2' : ¬(0 ≤ a ∧ a < 10) := fun hh => absurd hh.2 h2
          have h4 : ¬(20 ≤ a) := by linarith
          rw [if_neg h1, if_neg h2', if_pos h3', if_neg h4]
          omega
        · have h4 : 20 ≤ a := not_lt.mp h3
          have h2' : ¬(0 ≤ a ∧ a < 10) := fun hh => absurd hh.2 h2
          have h3' : ¬(10 ≤ a ∧ a < 20) := fun hh => absurd hh.2 h3
          rw [if_neg h1, if_neg h2', if_neg h3', if_pos h4]
          omega

/-- A closed statement that a probability (in percent) is within `[0,100]`. -/
def pctInRange (x : ℚ) : Prop := 0 ≤ x ∧ x ≤ 100

/-- C5: for every run, the profitability, bankruptcy and high-growth
probabilities and each of the four ROI bucket probabilities lie in
`[0, 100]`, and the four ROI bucket probabilities sum to exactly 100 (the
buckets `(-inf,0) [0,10) [10,20) [20,inf)` partition the final-period ROI
values). -/
theorem c5_probability_bounds (p : Params) (saasInStr : Bool) (periods : ℕ)
    (oracles : List Oracle) (scenario : String) (r : SimResult)
    (hos : oracles ≠ [])
    (hr : run_monte_carlo_simulation p saasInStr periods oracles scenario = some r) :
    pctInRange r.profitability_probability
    ∧ pctInRange r.bankruptcy_probability
    ∧ pctInRange r.high_growth_probability
    ∧ pctInRange r.roi_thresholds.negative
    ∧ pctInRange r.roi_thresholds.zero_to_10
    ∧ pctInRange r.roi_thresholds.ten_to_20
    ∧ pctInRange r.roi_thresholds.twenty_plus
    ∧ r.roi_thresholds.negative + r.roi_thresholds.zero_to_10
        + r.roi_thresholds.ten_to_20 + r.roi_thresholds.twenty_plus = 100 := by
  unfold run_monte_carlo_simulation at hr
  rcases ha : scenario_adjustments scenario with _ | adj <;> rw [ha] at hr
  · exact absurd hr (by simp)
  have hr' : run_monte_carlo_core (applyScenario p adj) saasInStr periods oracles = r :=
    Option.some_injective _ hr
  subst hr'
  have hn : 0 < oracles.length := List.length_pos.mpr hos
  simp only [run_monte_carlo_core]
  have houts := runTrials_length periods (if saasInStr then (1000 : ℚ) else 100)
    ((applyScenario p adj).initial_revenue / ((applyScenario p adj).market_share / 100))
    oracles (applyScenario p adj)
  set outs := (runTrials periods (if saasInStr then (1000 : ℚ) else 100)
    ((applyScenario p adj).initial_revenue / ((applyScenario p adj).market_share / 100))
    (applyScenario p adj) oracles).2 with houtsdef
  have hfinlen : ∀ f : TrialOut → List ℚ,
      (finalColumn (outs.map (fun tr => f tr))).length = oracles.length := by
    intro f
    simp [finalColumn, houts]
  refine ⟨?_, ?_, ?_, ?_, ?_, ?_, ?_, ?_⟩
  · have hlen := hfinlen (fun tr => tr.rcds.map (·.profit))
    have hc : ((finalColumn (outs.map (fun tr => tr.rcds.map (·.profit)))).countP
        (fun x => decide (x > 0))) ≤ oracles.length := by
      rw [← hlen]; exact List.countP_le_length _
    exact pct_bounds _ _ hc hn
  · have hc : outs.countP (·.bankrupt) ≤ oracles.length := by
      rw [← houts]; exact List.countP_le_length _
    exact pct_bounds _ _ hc hn
  · have hc : outs.countP (·.high_growth) ≤ oracles.length := by
      rw [← houts]; exact List.countP_le_length _
    exact pct_bounds _ _ hc hn
  · have hlen := hfinlen (fun tr => tr.rcds.map (·.roi))
    have hc : ((finalColumn (outs.map (fun tr => tr.rcds.map (·.roi)))).countP
        (fun x => decide (x < 0))) ≤ oracles.length := by
      rw [← hlen]; exact List.countP_le_length _
    exact pct_bounds _ _ hc hn
  · have hlen := hfinlen (fun tr => tr.rcds.map (·.roi))
    have hc : ((finalColumn (outs.map (fun tr => tr.rcds.map (·.roi)))).countP
        (fun x => decide (0 ≤ x ∧ x < 10))) ≤ oracles.length := by
      rw [← hlen]; exact List.countP_le_length _
    exact pct_bounds _ _ hc hn
  · have hlen := hfinlen (fun tr => tr.rcds.map (·.roi))
    have hc : ((finalColumn (outs.map (fun tr => tr.rcds.map (·.roi)))).countP
        (fun x => decide (10 ≤ x ∧ x < 20))) ≤ oracles.length := by
      rw [← hlen]; exact List.countP_le_length _
    exact pct_bounds _ _ hc hn
  · have hlen := hfinlen (fun tr => tr.rcds.map (·.roi))
    have hc : ((finalColumn (outs.map (fun tr => tr.rcds.map (·.roi)))).countP
        (fun x => decide (20 ≤ x))) ≤ oracles.length := by
      rw [← hlen]; exact List.countP_le_length _
    exact pct_bounds _ _ hc hn
  · have hlen := hfinlen (fun tr => tr.rcds.map (·.roi))
    have hpart := roi_bucket_partition (finalColumn (outs.map (fun tr => tr.rcds.map (·.roi))))
    rw [hlen] at hpart
    exact pct_sum_eq_100 _ _ _ _ _ hpart hn

/-! ### C9: percentile thresholds are monotone in the percentile rank -/

theorem sorted_getD_mono {l : List ℚ} (hl : l.Sorted (· ≤ ·)) {i j : ℕ}
    (hij : i ≤ j) (hj : j < l.length) : l.getD i 0 ≤ l.getD j 0 := by
  have hi : i < l.length := lt_of_le_of_lt hij hj
  rw [List.getD_eq_getElem?_getD, List.getD_eq_getElem?_getD,
    List.getElem?_eq_getElem hi, List.getElem?_eq_getElem hj]
  simp only [Option.getD_some]
  have h := List.Sorted.rel_get_of_le hl
    (show (⟨i, hi⟩ : Fin l.length) ≤ ⟨j, hj⟩ from hij)
  simpa using h

theorem interp_le_upper (a b f : ℚ) (hab : a ≤ b) (hf : f ≤ 1) :
    a + f * (b - a) ≤ b := by nlinarith

theorem lower_le_interp (a b f : ℚ) (hab : a ≤ b) (hf : 0 ≤ f) :
    a ≤ a + f * (b - a) := by nlinarith

theorem interp_mono_frac (a b f g : ℚ) (hab : a ≤ b) (hfg : f ≤ g) :
    a + f * (b - a) ≤ a + g * (b - a) := by nlinarith

theorem percentileOfSorted_mono {l : List ℚ} (hl : l.Sorted (· ≤ ·))
    (hne : l ≠ []) {q1 q2 : ℚ} (hq0 : 0 ≤ q1) (h12 : q1 ≤ q2) (hq2 : q2 ≤ 100) :
    percentileOfSorted l q1 ≤ percentileOfSorted l q2 := by
  simp only [percentileOfSorted]
  set n := l.length with hndef
  have hn : 1 ≤ n := List.length_pos.mpr hne
  have hn1 : (0 : ℚ) ≤ (n : ℚ) - 1 := by
    have : (1 : ℚ) ≤ (n : ℚ) := by exact_mod_cast hn
    linarith
  set h1 : ℚ := q1 * ((n : ℚ) - 1) / 100 with hh1
  set h2 : ℚ := q2 * ((n : ℚ) - 1) / 100 with hh2
  have h10 : 0 ≤ h1 := by
    rw [hh1]
    positivity
  have h12' : h1 ≤ h2 := by
    rw [hh1, hh2]
    have := mul_le_mul_of_nonneg_right h12 hn1
    linarith
  have h2top : h2 ≤ (n : ℚ) - 1 := by
    rw [hh2, div_le_iff₀ (by norm_num : (0:ℚ) < 100)]
    nlinarith
  have hf1 : 0 ≤ ⌊h1⌋ := Int.floor_nonneg.mpr h10
  have hf2 : 0 ≤ ⌊h2⌋ := Int.floor_nonneg.mpr (le_trans h10 h12')
  set k1 := ⌊h1⌋.toNat with hk1
  set k2 := ⌊h2⌋.toNat with hk2
  have hcast1 : ((k1 : ℕ) : ℚ) = ((⌊h1⌋ : ℤ) : ℚ) := by
    rw [hk1]
    exact_mod_cast congrArg (fun z : ℤ => ((z : ℚ))) (Int.toNat_of_nonneg hf1)
  have hcast2 : ((k2 : ℕ) : ℚ) = ((⌊h2⌋ : ℤ) : ℚ) := by
    rw [hk2]
    exact_mod_cast congrArg (fun z : ℤ => ((z : ℚ))) (Int.toNat_of_nonneg hf2)
  have hk1q : (k1 : ℚ) ≤ h1 := by
    rw [hcast1]
    exact Int.floor_le h1
  have hk2q : (k2 : ℚ) ≤ h2 := by
    rw [hcast2]
    exact Int.floor_le h2
  have hk1q' : h1 < (k1 : ℚ) + 1 := by
    rw [hcast1]
    exact Int.lt_floor_add_one h1
  have hk2q' : h2 < (k2 : ℚ) + 1 := by
    rw [hcast2]
    exact Int.lt_floor_add_one h2
  have hk12 : k1 ≤ k2 := by
    have hff : ⌊h1⌋ ≤ ⌊h2⌋ := Int.floor_le_floor h12'
    omega
  have hk2n : k2 ≤ n - 1 := by
    have hc : (⌊h2⌋ : ℚ) ≤ (n : ℚ) - 1 := le_trans (Int.floor_le h2) h2top
    have hc' : ⌊h2⌋ ≤ (n : ℤ) - 1 := by exact_mod_cast hc
    omega
  have hk1n : k1 ≤ n - 1 := le_trans hk12 hk2n
  rw [min_eq_right hk1n, min_eq_right hk2n]
  have hA1B1 : l.getD k1 0 ≤ l.getD (min (n - 1) (k1 + 1)) 0 :=
    sorted_getD_mono hl (by omega) (by omega)
  have hA2B2 : l.getD k2 0 ≤ l.getD (min (n - 1) (k2 + 1)) 0 :=
    sorted_getD_mono hl (by omega) (by omega)
  rcases eq_or_lt_of_le hk12 with heq | hlt
  · rw [heq]
    refine interp_mono_frac _ _ _ _ ?_ ?_
    · rw [← heq]
      exact hA1B1
    · rw [← heq]
      linarith
  · have hv1 : l.getD k1 0 + (h1 - (k1 : ℚ)) * (l.getD (min (n - 1) (k1 + 1)) 0 - l.getD k1 0)
        ≤ l.getD (min (n - 1) (k1 + 1)) 0 :=
      interp_le_upper _ _ _ hA1B1 (by linarith)
    have hB1A2 : l.getD (min (n - 1) (k1 + 1)) 0 ≤ l.getD k2 0 :=
      sorted_getD_mono hl (by omega) (by omega)
    have hv2 : l.getD k2 0
        ≤ l.getD k2 0 + (h2 - (k2 : ℚ)) * (l.getD (min (n - 1) (k2 + 1)) 0 - l.getD k2 0) :=
      lower_le_interp _ _ _ hA2B2 (by linarith)
    linarith

theorem npPercentile_mono (l : List ℚ) (hne : l ≠ []) {q1 q2 : ℚ}
    (hq0 : 0 ≤ q1) (h12 : q1 ≤ q2) (hq2 : q2 ≤ 100) :
    npPercentile l q1 ≤ npPercentile l q2 := by
  unfold npPercentile
  have hsorted : (List.insertionSort (· ≤ ·) l).Sorted (· ≤ ·) :=
    List.sorted_insertionSort (· ≤ ·) l
  have hne' : List.insertionSort (· ≤ ·) l ≠ [] := by
    intro hcontra
    apply hne
    have := List.length_insertionSort (· ≤ ·) l
    rw [hcontra] at this
    exact List.eq_nil_of_length_eq_zero this.symm
  exact percentileOfSorted_mono hsorted hne' hq0 h12 hq2

/-- C9: for every run, the final-period percentile thresholds for revenue
and for profit are monotone: the 10th-percentile value is at most the
median and the median is at most the 90th-percentile value (linear
interpolation on the sorted final column is monotone in the rank). -/
theorem c9_thresholds_monotone (p : Params) (saasInStr : Bool) (periods : ℕ)
    (oracles : List Oracle) (scenario : String) (r : SimResult)
    (hos : oracles ≠ [])
    (hr : run_monte_carlo_simulation p saasInStr periods oracles scenario = some r) :
    (r.revenue_thresholds.low_10th ≤ r.revenue_thresholds.median
      ∧ r.revenue_thresholds.median ≤ r.revenue_thresholds.high_90th)
    ∧ (r.profit_thresholds.low_10th ≤ r.profit_thresholds.median
      ∧ r.profit_thresholds.median ≤ r.profit_thresholds.high_90th) := by
  unfold run_monte_carlo_simulation at hr
  rcases ha : scenario_adjustments scenario with _ | adj <;> rw [ha] at hr
  · exact absurd hr (by simp)
  have hr' : run_monte_carlo_core (applyScenario p adj) saasInStr periods oracles = r :=
    Option.some_injective _ hr
  subst hr'
  have hn : 0 < oracles.length := List.length_pos.mpr hos
  simp only [run_monte_carlo_core]
  have houts := runTrials_length periods (if saasInStr then (1000 : ℚ) else 100)
    ((applyScenario p adj).initial_revenue / ((applyScenario p adj).market_share / 100))
    oracles (applyScenario p adj)
  set outs := (runTrials periods (if saasInStr then (1000 : ℚ) else 100)
    ((applyScenario p adj).initial_revenue / ((applyScenario p adj).market_share / 100))
    (applyScenario p adj) oracles).2 with houtsdef
  clear_value outs
  have hlenRev : (finalColumn (outs.map (fun tr => tr.rcds.map (·.revenue)))).length
      = oracles.length := by
    simp [finalColumn, houts]
  have hneRev : finalColumn (outs.map (fun tr => tr.rcds.map (·.revenue))) ≠ [] := by
    intro hc
    rw [hc] at hlenRev
    simp at hlenRev
    omega
  have hlenProf : (finalColumn (outs.map (fun tr => tr.rcds.map (·.profit)))).length
      = oracles.length := by
    simp [finalColumn, houts]
  have hneProf : finalColumn (outs.map (fun tr => tr.rcds.map (·.profit))) ≠ [] := by
    intro hc
    rw [hc] at hlenProf
    simp at hlenProf
    omega
  refine ⟨⟨?_, ?_⟩, ⟨?_, ?_⟩⟩
  · exact npPercentile_mono _ hneRev (by norm_num) (by norm_num) (by norm_num)
  · exact npPercentile_mono _ hneRev (by norm_num) (by norm_num) (by norm_num)
  · exact npPercentile_mono _ hneProf (by norm_num) (by norm_num) (by norm_num)
  · exact npPercentile_mono _ hneProf (by norm_num) (by norm_num) (by norm_num)

/-! ### Concrete sample inputs for witnesses and counterexamples -/

/-- A degenerate oracle: every standard draw is `0`. In particular every
`np.random.random()` check with a positive threshold succeeds. -/
def O0 : Oracle :=
  ⟨fun _ => 0, fun _ => 0, fun _ => 0, fun _ => 0, fun _ => 0, fun _ => 0,
   fun _ => 0, fun _ => 0, fun _ => 0, fun _ => 0, fun _ => 0⟩

/-- A degenerate generator oracle: every uniform draw is at the low end of
its range; the quarterly conversion is sampled as the identity. -/
def r0 : GenOracle :=
  ⟨0, 0, 0, 0, 0, 0, 0, 0, 0, 0, 0, 0, 0, 0, 0, fun x => x⟩

/-- A concrete SaaS-startup-like parameter set with simple rational
entries. -/
def P0 : Params :=
  { initial_investment := 1000000
    initial_revenue := 1000000
    current_cash_reserves := 500000
    debt_level := 100000
    market_share := 2
    revenue_growth_rate_mean := 6
    revenue_growth_volatility := 10
    variable_costs_percentage := 30
    fixed_costs_base := 800000
    fixed_costs := 250000
    r_and_d_percentage := 15
    marketing_percentage := 15
    customer_retention_rate := 85
    market_growth_rate_mean := 5
    industry_cyclicality := 2
    market_volatility := 8
    seasonality_factor := 1/10
    competitor_entry_probability := 3/20
    competitor_impact := 10
    regulatory_change_probability := 1/10
    regulatory_impact := 10
    supply_chain_disruption_probability := 1/10
    supply_chain_impact := 15
    cost_inflation_rate := 1/2
    market_share_growth := 1
    funding_rounds := 2
    funding_probability := 1/2
    funding_amount_mean := 1000000
    credit_score := 700
    employee_count := 20
    employee_productivity := 1 }

/-- The all-ones multiplier row that `scenario_adjustments "neutral"`
returns. -/
def neutralAdj : ScenarioAdj := ⟨1, 1, 1, 1, 1, 1, 1, 1⟩

/-- The aggregate result of a single-trial, single-period neutral run on
`P0`. -/
def R0 : SimResult := run_monte_carlo_core (applyScenario P0 neutralAdj) false 1 [O0]

/-! ### C1: the shared parameter dictionary leaks mutations across trials -/

/-- `P0` with a competitor-entry probability of 1, so the competitor-entry
event certainly fires in period 0 of every trial. -/
def c1Params : Params := { P0 with competitor_entry_probability := 1 }

/-- C1 fails on the code: in a 2-iteration, 1-period neutral run in which
both trials receive identical random draws, the two trials record different
period-0 profits, because trial 1's competitor event scales
`marketing_percentage` (and its supply event scales the retention rate) in
the shared `adjusted_data` dictionary, and trial 2 starts from the mutated
values (18 instead of 15 for marketing).  The second conjunct exhibits the
mutation escaping the trial. -/
theorem c1_cross_trial_leak :
    (run_monte_carlo_simulation c1Params false 1 [O0, O0] "neutral").map
        (fun r => r.profit_projections.getD 0 [])
      ≠ (run_monte_carlo_simulation c1Params false 1 [O0, O0] "neutral").map
        (fun r => r.profit_projections.getD 1 [])
    ∧ (runTrial O0 1 100 (c1Params.initial_revenue / (c1Params.market_share / 100))
        c1Params).1.marketing_percentage ≠ c1Params.marketing_percentage := by
  constructor <;> decide!

/-! ### C3: the customer-ratio division of line 420 is unguarded -/

/-- `P0` with zero initial revenue (the analogue of the spec's sanctioned
`initial_investment = 0` degenerate input). -/
def c3Params : Params := { P0 with initial_revenue := 0 }

/-- C3 fails on the code: with `initial_revenue = 0` the first period's
`customer_count / (revenue / 100)` at line 420 divides by zero; in IEEE
floats this is `0/0 = NaN`, which nothing replaces (the source contains no
non-finite check), and it flows into `growth_rate` and the recorded
revenue/profit/ROI.  The checked trial, which returns `none` exactly when
an IEEE division would go non-finite, aborts. -/
theorem c3_unguarded_customer_ratio :
    checkedRunTrial O0 1 100
        (c3Params.initial_revenue / (c3Params.market_share / 100)) c3Params = none := by
  decide!

/-! ### C2: only the industry input has a silent default -/

/-- C2 fails on the code as stated: an unrecognized size tier is a
`KeyError` (`size_adjustments[size]`, line 165), not a silent default. -/
theorem c2_counterexample_size_raises :
    generate_company_data "SaaS" "midsize" "normal" r0 = none := by
  decide!

/-- C2, amended: an unrecognized industry silently falls back to SaaS and
the call still returns a normal result, but an unrecognized size or market
condition in `generate_company_data`, and an unrecognized scenario in
`run_monte_carlo_simulation`, raise `KeyError` instead of substituting a
default. -/
theorem c2_amended_fallbacks :
    (∀ (industry size mc : String) (r : GenOracle),
        (size = "startup" ∨ size = "growth" ∨ size = "established") →
        (mc = "boom" ∨ mc = "normal" ∨ mc = "recession") →
        (generate_company_data industry size mc r).isSome = true
          ∧ generate_company_data industry size mc r
              = generate_company_data
                  (if validIndustry industry then industry else "SaaS") size mc r)
    ∧ (∀ (industry size mc : String) (r : GenOracle),
        size ≠ "startup" → size ≠ "growth" → size ≠ "established" →
        generate_company_data industry size mc r = none)
    ∧ (∀ (industry size mc : String) (r : GenOracle),
        mc ≠ "boom" → mc ≠ "normal" → mc ≠ "recession" →
        generate_company_data industry size mc r = none)
    ∧ (∀ (p : Params) (saas : Bool) (periods : ℕ) (os : List Oracle) (sc : String),
        sc ≠ "optimistic" → sc ≠ "neutral" → sc ≠ "pessimistic" →
        run_monte_carlo_simulation p saas periods os sc = none) := by
  refine ⟨?_, ?_, ?_, ?_⟩
  · intro industry size mc r hsz hmc
    rcases hsz with rfl | rfl | rfl <;> rcases hmc with rfl | rfl | rfl <;>
      refine ⟨by simp [generate_company_data, size_adjustments, market_adjustments], ?_⟩ <;>
      cases hv : validIndustry industry <;>
      simp [generate_company_data, size_adjustments, market_adjustments, hv, ite_self]
  · intro industry size mc r h1 h2 h3
    simp [generate_company_data, size_adjustments, h1, h2, h3]
  · intro industry size mc r h1 h2 h3
    rcases h : size_adjustments size with _ | sa <;>
      simp [generate_company_data, market_adjustments, h, h1, h2, h3]
  · intro p saas periods os sc h1 h2 h3
    simp [run_monte_carlo_simulation, scenario_adjustments, h1, h2, h3]

/-- Witness for the amended C2 at concrete inputs. -/
theorem c2_amended_fallbacks_witness :
    ((generate_company_data "Quantum" "startup" "normal" r0).isSome = true
      ∧ generate_company_data "Quantum" "startup" "normal" r0
          = generate_company_data
              (if validIndustry "Quantum" then "Quantum" else "SaaS") "startup" "normal" r0)
    ∧ generate_company_data "SaaS" "boss" "normal" r0 = none
    ∧ generate_company_data "SaaS" "startup" "weird" r0 = none
    ∧ run_monte_carlo_simulation P0 false 4 [O0] "chaotic" = none :=
  ⟨c2_amended_fallbacks.1 "Quantum" "startup" "normal" r0 (Or.inl rfl)
      (Or.inr (Or.inl rfl)),
   c2_amended_fallbacks.2.1 "SaaS" "boss" "normal" r0 (by decide) (by decide) (by decide),
   c2_amended_fallbacks.2.2.1 "SaaS" "startup" "weird" r0 (by decide) (by decide)
      (by decide),
   c2_amended_fallbacks.2.2.2 P0 false 4 [O0] "chaotic" (by decide) (by decide)
      (by decide)⟩

/-! ### Witnesses for the conditional theorems -/

/-- Witness for C5 on the concrete single-trial run `R0`. -/
theorem c5_probability_bounds_witness :
    pctInRange R0.profitability_probability
    ∧ pctInRange R0.bankruptcy_probability
    ∧ pctInRange R0.high_growth_probability
    ∧ pctInRange R0.roi_thresholds.negative
    ∧ pctInRange R0.roi_thresholds.zero_to_10
    ∧ pctInRange R0.roi_thresholds.ten_to_20
    ∧ pctInRange R0.roi_thresholds.twenty_plus
    ∧ R0.roi_thresholds.negative + R0.roi_thresholds.zero_to_10
        + R0.roi_thresholds.ten_to_20 + R0.roi_thresholds.twenty_plus = 100 :=
  c5_probability_bounds P0 false 1 [O0] "neutral" R0 (by simp) rfl

/-- Witness for C9 on the concrete single-trial run `R0`. -/
theorem c9_thresholds_monotone_witness :
    (R0.revenue_thresholds.low_10th ≤ R0.revenue_thresholds.median
      ∧ R0.revenue_thresholds.median ≤ R0.revenue_thresholds.high_90th)
    ∧ (R0.profit_thresholds.low_10th ≤ R0.profit_thresholds.median
      ∧ R0.profit_thresholds.median ≤ R0.profit_thresholds.high_90th) :=
  c9_thresholds_monotone P0 false 1 [O0] "neutral" R0 (by simp) rfl

/-- `P0` with zero initial investment. -/
def P7 : Params := { P0 with initial_investment := 0 }

/-- The aggregate result of a single-trial, two-period neutral run on
`P7`. -/
def R7 : SimResult := run_monte_carlo_core (applyScenario P7 neutralAdj) false 2 [O0]

/-- Witness for C7 on the concrete run `R7` with zero initial investment. -/
theorem c7_zero_investment_roi_witness :
    P7.initial_investment = 0 ∧ ∀ row ∈ R7.roi_projections, ∀ x ∈ row, x = 0 :=
  ⟨rfl, c7_zero_investment_roi P7 false 2 [O0] "neutral" R7 rfl rfl⟩

/-- Witness for C10 on a concrete three-period trial. -/
theorem c10_market_share_ceiling_witness :
    ((runTrial O0 3 100 (P0.initial_revenue / (P0.market_share / 100)) P0).2.1.getD 0
        ⟨0, 0, 0, 0, 0⟩).market_share ≤ min 80 (P0.market_share * 5) :=
  c10_market_share_ceiling O0 3 100 (P0.initial_revenue / (P0.market_share / 100)) P0 _
    (by decide!)
